import Mathlib

/-!
Verification of the upload-validation module
(`src/app/lib/storage/validation.ts` of yvocilon/boilerplaite).

Buffers are modelled as `List Nat` (one entry per byte); declared file
sizes are `Int` (JavaScript numbers used as integral byte counts); the
`FileValidationResult` record models the TypeScript interface, with the
optional fields `error`, `mimeType` and `validatedFiles` modelled as
`Option` (absent = `none`).
-/

namespace Upload

/-- The four allowed MIME types, `ALLOWED_MIME_TYPES` in the source. -/
inductive AllowedMimeType where
  | png
  | jpeg
  | gif
  | webp
deriving DecidableEq, Repr, Inhabited

/-- The constant `ALLOWED_MIME_TYPES` as the list of the four kinds in declared order. -/
def ALLOWED_MIME_TYPES : List AllowedMimeType :=
  [.png, .jpeg, .gif, .webp]

/-- Constant `MAX_FILE_SIZE = 5 * 1024 * 1024` (5MB per file). -/
def MAX_FILE_SIZE : Int := 5 * 1024 * 1024

/-- Constant `MAX_TOTAL_SIZE = 20 * 1024 * 1024` (20MB total). -/
def MAX_TOTAL_SIZE : Int := 20 * 1024 * 1024

/-- Table `MAGIC_BYTES`: magic-byte signature table, in the source's entry order
(png, jpeg, gif, webp) with each kind's signature lists in declared order. -/
def MAGIC_BYTES : List (AllowedMimeType × List (List Nat)) :=
  [ (.png, [[0x89, 0x50, 0x4e, 0x47, 0x0d, 0x0a, 0x1a, 0x0a]]),
    (.jpeg,
      [[0xff, 0xd8, 0xff, 0xe0],
       [0xff, 0xd8, 0xff, 0xe1],
       [0xff, 0xd8, 0xff, 0xe2],
       [0xff, 0xd8, 0xff, 0xdb],
       [0xff, 0xd8, 0xff, 0xee]]),
    (.gif,
      [[0x47, 0x49, 0x46, 0x38, 0x37, 0x61],
       [0x47, 0x49, 0x46, 0x38, 0x39, 0x61]]),
    (.webp, [[0x52, 0x49, 0x46, 0x46]]) ]

/-- The ASCII bytes of the string "WEBP" (the WebP marker at offset 8). -/
def webpMarker : List Nat := [0x57, 0x45, 0x42, 0x50]

/-- Model of `signature.every((byte, index) => buffer[index] === byte)` under the
guard `buffer.length >= signature.length`: the signature bytes equal the
buffer's first `signature.length` bytes. -/
def sigMatches (buffer signature : List Nat) : Bool :=
  decide (signature.length ≤ buffer.length ∧ buffer.take signature.length = signature)

/-- The WebP extra check: `buffer.length >= 12` and
`buffer.slice(8, 12).toString("ascii") === "WEBP"`. Node ascii decoding
clears the highest bit of each byte before decoding, so bytes 8..11 are
compared to "WEBP" modulo masking with 0x7F (for a byte, `& 0x7F` is
`% 128`). -/
def webpExtraCheck (buffer : List Nat) : Bool :=
  decide (12 ≤ buffer.length
    ∧ ((buffer.drop 8).take 4).map (fun byte => byte % 128) = webpMarker)

/-- Inner loop of `detectMimeType`: try each signature of one kind in order.
A matching WebP signature additionally requires `webpExtraCheck`;
on its failure the TypeScript `continue` moves to the next signature. -/
def checkSignatures (buffer : List Nat) (mimeType : AllowedMimeType) :
    List (List Nat) → Option AllowedMimeType
  | [] => none
  | signature :: rest =>
    if sigMatches buffer signature then
      if mimeType = .webp then
        if webpExtraCheck buffer then some mimeType
        else checkSignatures buffer mimeType rest
      else some mimeType
    else checkSignatures buffer mimeType rest

/-- Outer loop of `detectMimeType`: iterate `Object.entries(MAGIC_BYTES)`
in insertion order. -/
def detectLoop (buffer : List Nat) :
    List (AllowedMimeType × List (List Nat)) → Option AllowedMimeType
  | [] => none
  | (mimeType, signatures) :: rest =>
    match checkSignatures buffer mimeType signatures with
    | some m => some m
    | none => detectLoop buffer rest

/-- Function `detectMimeType(buffer)`: returns the first kind one of whose
signatures matches the buffer's prefix (WebP also requiring the marker at
offset 8), else `null` (`none`). -/
def detectMimeType (buffer : List Nat) : Option AllowedMimeType :=
  detectLoop buffer MAGIC_BYTES

/-- Function `validateFileSize(size)`: `size > 0 && size <= MAX_FILE_SIZE`. -/
def validateFileSize (size : Int) : Bool :=
  size > 0 && size ≤ MAX_FILE_SIZE

/-- Function `validateTotalSize(totalSize)`: `totalSize <= MAX_TOTAL_SIZE`. -/
def validateTotalSize (totalSize : Int) : Bool :=
  totalSize ≤ MAX_TOTAL_SIZE

/-- A `File`: declared name, declared size, and byte content (what
`file.arrayBuffer()` yields). -/
structure File where
  name : String
  size : Int
  content : List Nat
deriving DecidableEq, Repr

/-- Interface `FileValidationResult` (together with the `validatedFiles` extension
used by `validateFiles`); optional fields absent = `none`. -/
structure FileValidationResult where
  valid : Bool
  error : Option String := none
  mimeType : Option AllowedMimeType := none
  validatedFiles : Option (List (File × AllowedMimeType)) := none
deriving DecidableEq, Repr

/-- The size-exceeded rejection message of `validateFile`. -/
def sizeErrorMsg (name : String) : String :=
  "File \"" ++ name ++ "\" exceeds maximum size of 5MB"

/-- The unrecognized-content rejection message of `validateFile`. -/
def contentErrorMsg (name : String) : String :=
  "File \"" ++ name ++ "\" is not a valid image (PNG, JPG, GIF, or WebP)"

/-- The batch total-size rejection message of `validateFiles`. -/
def totalErrorMsg : String :=
  "Total file size exceeds 20MB limit"

/-- Function `validateFile(file)`: size check first, then magic-byte detection on
the file's content. -/
def validateFile (file : File) : FileValidationResult :=
  if !validateFileSize file.size then
    { valid := false, error := some (sizeErrorMsg file.name) }
  else
    match detectMimeType file.content with
    | none => { valid := false, error := some (contentErrorMsg file.name) }
    | some detectedMimeType => { valid := true, mimeType := some detectedMimeType }

/-- Model of `files.reduce((sum, file) => sum + file.size, 0)`. -/
def totalSizeOf (files : List File) : Int :=
  files.foldl (fun sum file => sum + file.size) 0

/-- The per-file loop of `validateFiles`: validate each file in order,
returning the first rejection unchanged, else accumulating
`(file, mimeType)` pairs. -/
def validateFilesGo : List File → List (File × AllowedMimeType) → FileValidationResult
  | [], validatedFiles => { valid := true, validatedFiles := some validatedFiles }
  | file :: rest, validatedFiles =>
    let result := validateFile file
    if !result.valid then result
    else validateFilesGo rest (validatedFiles ++ [(file, result.mimeType.get!)])

/-- Function `validateFiles(files)`: empty batch accepted with an empty list;
otherwise total-size check first, then each file in order. -/
def validateFiles (files : List File) : FileValidationResult :=
  if files.length = 0 then { valid := true, validatedFiles := some [] }
  else if !validateTotalSize (totalSizeOf files) then
    { valid := false, error := some totalErrorMsg }
  else
    validateFilesGo files []

/-- Function `isAllowedMimeType(mimeType)`: membership of a raw MIME string in
`ALLOWED_MIME_TYPES`. -/
def isAllowedMimeType (mimeType : String) : Bool :=
  (["image/png", "image/jpeg", "image/gif", "image/webp"]).contains mimeType

/-- Code-side signature predicate: the buffer's first bytes equal one of the
kind's declared signature sequences (PNG `89 50 4E 47 0D 0A 1A 0A`; JPEG
`FF D8 FF` then one of `E0 E1 E2 DB EE`; GIF `GIF87a`/`GIF89a`; WEBP the
`RIFF` four bytes plus the marker check of the code at offsets 8..11,
which compares to "WEBP" after the Node ascii masking of bit 7). -/
def hasSignature (b : List Nat) : AllowedMimeType → Bool
  | .png => sigMatches b [0x89, 0x50, 0x4e, 0x47, 0x0d, 0x0a, 0x1a, 0x0a]
  | .jpeg =>
      sigMatches b [0xff, 0xd8, 0xff, 0xe0] ||
      sigMatches b [0xff, 0xd8, 0xff, 0xe1] ||
      sigMatches b [0xff, 0xd8, 0xff, 0xe2] ||
      sigMatches b [0xff, 0xd8, 0xff, 0xdb] ||
      sigMatches b [0xff, 0xd8, 0xff, 0xee]
  | .gif =>
      sigMatches b [0x47, 0x49, 0x46, 0x38, 0x37, 0x61] ||
      sigMatches b [0x47, 0x49, 0x46, 0x38, 0x39, 0x61]
  | .webp => sigMatches b [0x52, 0x49, 0x46, 0x46] && webpExtraCheck b

/-- Specification-side WEBP marker check as the claims state it: the buffer
is at least 12 bytes long and bytes 8..11 are exactly the ASCII bytes of
"WEBP" (57 45 42 50), with no masking. -/
def webpMarkerExact (b : List Nat) : Bool :=
  decide (12 ≤ b.length ∧ (b.drop 8).take 4 = webpMarker)

/-- Specification-side predicate following the claim wording: the buffer
prefix equals one of the kind's declared signature byte sequences, with
WEBP requiring the exact ASCII "WEBP" marker at offsets 8..11. -/
def specHasSignature (b : List Nat) : AllowedMimeType → Bool
  | .png => sigMatches b [0x89, 0x50, 0x4e, 0x47, 0x0d, 0x0a, 0x1a, 0x0a]
  | .jpeg =>
      sigMatches b [0xff, 0xd8, 0xff, 0xe0] ||
      sigMatches b [0xff, 0xd8, 0xff, 0xe1] ||
      sigMatches b [0xff, 0xd8, 0xff, 0xe2] ||
      sigMatches b [0xff, 0xd8, 0xff, 0xdb] ||
      sigMatches b [0xff, 0xd8, 0xff, 0xee]
  | .gif =>
      sigMatches b [0x47, 0x49, 0x46, 0x38, 0x37, 0x61] ||
      sigMatches b [0x47, 0x49, 0x46, 0x38, 0x39, 0x61]
  | .webp => sigMatches b [0x52, 0x49, 0x46, 0x46] && webpMarkerExact b

/-- The first byte shared by all of a kind's signatures. -/
def firstByte : AllowedMimeType → Nat
  | .png => 0x89
  | .jpeg => 0xff
  | .gif => 0x47
  | .webp => 0x52

theorem sigMatches_iff (b s : List Nat) :
    sigMatches b s = true ↔ s.length ≤ b.length ∧ b.take s.length = s := by
  simp [sigMatches]

theorem sigMatches_head {b : List Nat} {a : Nat} {s : List Nat}
    (h : sigMatches b (a :: s) = true) : b.head? = some a := by
  rw [sigMatches_iff] at h
  cases b with
  | nil => exact absurd h.2 (by simp)
  | cons c t =>
    obtain ⟨-, h2⟩ := h
    simp only [List.length_cons, List.take_succ_cons, List.cons.injEq] at h2
    simp [h2.1]

theorem sigMatches_head_ne {b : List Nat} {a : Nat} {s : List Nat} {c : Nat}
    (hb : b.head? = some c) (hne : c ≠ a) : sigMatches b (a :: s) = false := by
  by_contra hm
  rw [Bool.not_eq_false] at hm
  have h2 := hb.symm.trans (sigMatches_head hm)
  injection h2 with h3
  exact hne h3

theorem checkSignatures_png (b : List Nat) :
    checkSignatures b .png [[0x89, 0x50, 0x4e, 0x47, 0x0d, 0x0a, 0x1a, 0x0a]]
      = if hasSignature b .png then some .png else none := by
  by_cases h : sigMatches b [0x89, 0x50, 0x4e, 0x47, 0x0d, 0x0a, 0x1a, 0x0a] <;>
    simp [checkSignatures, hasSignature, h]

theorem checkSignatures_jpeg (b : List Nat) :
    checkSignatures b .jpeg
        [[0xff, 0xd8, 0xff, 0xe0],
         [0xff, 0xd8, 0xff, 0xe1],
         [0xff, 0xd8, 0xff, 0xe2],
         [0xff, 0xd8, 0xff, 0xdb],
         [0xff, 0xd8, 0xff, 0xee]]
      = if hasSignature b .jpeg then some .jpeg else none := by
  by_cases h0 : sigMatches b [0xff, 0xd8, 0xff, 0xe0] <;>
  by_cases h1 : sigMatches b [0xff, 0xd8, 0xff, 0xe1] <;>
  by_cases h2 : sigMatches b [0xff, 0xd8, 0xff, 0xe2] <;>
  by_cases h3 : sigMatches b [0xff, 0xd8, 0xff, 0xdb] <;>
  by_cases h4 : sigMatches b [0xff, 0xd8, 0xff, 0xee] <;>
    simp [checkSignatures, hasSignature, h0, h1, h2, h3, h4]

theorem checkSignatures_gif (b : List Nat) :
    checkSignatures b .gif
        [[0x47, 0x49, 0x46, 0x38, 0x37, 0x61],
         [0x47, 0x49, 0x46, 0x38, 0x39, 0x61]]
      = if hasSignature b .gif then some .gif else none := by
  by_cases h0 : sigMatches b [0x47, 0x49, 0x46, 0x38, 0x37, 0x61] <;>
  by_cases h1 : sigMatches b [0x47, 0x49, 0x46, 0x38, 0x39, 0x61] <;>
    simp [checkSignatures, hasSignature, h0, h1]

theorem checkSignatures_webp (b : List Nat) :
    checkSignatures b .webp [[0x52, 0x49, 0x46, 0x46]]
      = if hasSignature b .webp then some .webp else none := by
  by_cases h : sigMatches b [0x52, 0x49, 0x46, 0x46] <;>
  by_cases hw : webpExtraCheck b <;>
    simp [checkSignatures, hasSignature, h, hw]

theorem detect_eq_chain (b : List Nat) : detectMimeType b =
    if hasSignature b .png then some .png
    else if hasSignature b .jpeg then some .jpeg
    else if hasSignature b .gif then some .gif
    else if hasSignature b .webp then some .webp
    else none := by
  simp only [detectMimeType, MAGIC_BYTES, detectLoop]
  rw [checkSignatures_png, checkSignatures_jpeg, checkSignatures_gif, checkSignatures_webp]
  by_cases hp : hasSignature b .png
  · simp [hp]
  · by_cases hj : hasSignature b .jpeg
    · simp [hp, hj]
    · by_cases hg : hasSignature b .gif
      · simp [hp, hj, hg]
      · by_cases hw : hasSignature b .webp
        · simp [hp, hj, hg, hw]
        · simp [hp, hj, hg, hw]


theorem hasSignature_png_eq (b : List Nat) :
    hasSignature b .png = sigMatches b [0x89, 0x50, 0x4e, 0x47, 0x0d, 0x0a, 0x1a, 0x0a] := rfl

theorem hasSignature_jpeg_eq (b : List Nat) :
    hasSignature b .jpeg =
      (sigMatches b [0xff, 0xd8, 0xff, 0xe0] ||
       sigMatches b [0xff, 0xd8, 0xff, 0xe1] ||
       sigMatches b [0xff, 0xd8, 0xff, 0xe2] ||
       sigMatches b [0xff, 0xd8, 0xff, 0xdb] ||
       sigMatches b [0xff, 0xd8, 0xff, 0xee]) := rfl

theorem hasSignature_gif_eq (b : List Nat) :
    hasSignature b .gif =
      (sigMatches b [0x47, 0x49, 0x46, 0x38, 0x37, 0x61] ||
       sigMatches b [0x47, 0x49, 0x46, 0x38, 0x39, 0x61]) := rfl

theorem hasSignature_webp_eq (b : List Nat) :
    hasSignature b .webp = (sigMatches b [0x52, 0x49, 0x46, 0x46] && webpExtraCheck b) := rfl

theorem hasSignature_head {b : List Nat} {k : AllowedMimeType}
    (h : hasSignature b k = true) : b.head? = some (firstByte k) := by
  cases k
  · rw [hasSignature_png_eq] at h
    exact sigMatches_head h
  · rw [hasSignature_jpeg_eq] at h
    simp only [Bool.or_eq_true] at h
    rcases h with ((((h | h) | h) | h) | h) <;> exact sigMatches_head h
  · rw [hasSignature_gif_eq] at h
    simp only [Bool.or_eq_true] at h
    rcases h with h | h <;> exact sigMatches_head h
  · rw [hasSignature_webp_eq] at h
    simp only [Bool.and_eq_true] at h
    exact sigMatches_head h.1

theorem hasSignature_false_of_head {b : List Nat} {c : Nat} (k : AllowedMimeType)
    (hb : b.head? = some c) (hc : c ≠ firstByte k) : hasSignature b k = false := by
  cases k <;> simp only [firstByte] at hc
  · rw [hasSignature_png_eq]
    exact sigMatches_head_ne hb hc
  · rw [hasSignature_jpeg_eq]
    simp [sigMatches_head_ne hb hc]
  · rw [hasSignature_gif_eq]
    simp [sigMatches_head_ne hb hc]
  · rw [hasSignature_webp_eq]
    simp [sigMatches_head_ne hb hc]

theorem detect_some_iff (b : List Nat) (k : AllowedMimeType) :
    detectMimeType b = some k ↔ hasSignature b k = true := by
  constructor
  · intro h
    rw [detect_eq_chain b] at h
    split_ifs at h with h1 h2 h3 h4
    · injection h with h2; subst h2; exact h1
    · injection h with h3; subst h3; exact h2
    · injection h with h4; subst h4; exact h3
    · injection h with h5; subst h5; exact h4
  · intro h
    have hb := hasSignature_head h
    rw [detect_eq_chain b]
    cases k with
    | png => simp [h]
    | jpeg =>
      have h1 := hasSignature_false_of_head .png hb (by decide)
      simp [h1, h]
    | gif =>
      have h1 := hasSignature_false_of_head .png hb (by decide)
      have h2 := hasSignature_false_of_head .jpeg hb (by decide)
      simp [h1, h2, h]
    | webp =>
      have h1 := hasSignature_false_of_head .png hb (by decide)
      have h2 := hasSignature_false_of_head .jpeg hb (by decide)
      have h3 := hasSignature_false_of_head .gif hb (by decide)
      simp [h1, h2, h3, h]

theorem detect_none_of_no_sig {b : List Nat}
    (h : ∀ k, hasSignature b k = false) : detectMimeType b = none := by
  cases hd : detectMimeType b with
  | none => rfl
  | some k => exact absurd ((detect_some_iff b k).mp hd) (by simp [h k])

theorem validateFile_size_fail {f : File} (h : validateFileSize f.size = false) :
    validateFile f = { valid := false, error := some (sizeErrorMsg f.name) } := by
  simp [validateFile, h]

theorem validateFile_detect_none {f : File} (h1 : validateFileSize f.size = true)
    (h2 : detectMimeType f.content = none) :
    validateFile f = { valid := false, error := some (contentErrorMsg f.name) } := by
  simp [validateFile, h1, h2]

theorem validateFile_detect_some {f : File} {m : AllowedMimeType}
    (h1 : validateFileSize f.size = true) (h2 : detectMimeType f.content = some m) :
    validateFile f = { valid := true, mimeType := some m } := by
  simp [validateFile, h1, h2]

theorem validateFile_valid_elim {f : File} (h : (validateFile f).valid = true) :
    validateFileSize f.size = true ∧ ∃ m, detectMimeType f.content = some m ∧
      validateFile f = { valid := true, mimeType := some m } := by
  by_cases hs : validateFileSize f.size
  · cases hd : detectMimeType f.content with
    | none => rw [validateFile_detect_none hs hd] at h; exact absurd h (by simp)
    | some m => exact ⟨hs, m, rfl, validateFile_detect_some hs hd⟩
  · rw [Bool.not_eq_true] at hs
    rw [validateFile_size_fail hs] at h
    exact absurd h (by simp)

theorem validateFile_invalid_elim {f : File} (h : (validateFile f).valid = false) :
    validateFile f = { valid := false, error := some (sizeErrorMsg f.name) }
    ∨ validateFile f = { valid := false, error := some (contentErrorMsg f.name) } := by
  by_cases hs : validateFileSize f.size
  · cases hd : detectMimeType f.content with
    | none => exact Or.inr (validateFile_detect_none hs hd)
    | some m =>
      rw [validateFile_detect_some hs hd] at h
      exact absurd h (by simp)
  · rw [Bool.not_eq_true] at hs
    exact Or.inl (validateFile_size_fail hs)

theorem validateFilesGo_first_fail (f : File) (post : List File)
    (hf : (validateFile f).valid = false) :
    ∀ (pre : List File) (acc : List (File × AllowedMimeType)),
      (∀ g ∈ pre, (validateFile g).valid = true) →
      validateFilesGo (pre ++ f :: post) acc = validateFile f := by
  intro pre
  induction pre with
  | nil => intro acc _; simp [validateFilesGo, hf]
  | cons g rest ih =>
    intro acc hpre
    have hg := hpre g (List.mem_cons_self g rest)
    have step : validateFilesGo ((g :: rest) ++ f :: post) acc
        = validateFilesGo (rest ++ f :: post)
            (acc ++ [(g, (validateFile g).mimeType.get!)]) := by
      simp [validateFilesGo, hg]
    rw [step]
    exact ih _ (fun x hx => hpre x (List.mem_cons_of_mem _ hx))

theorem validateFilesGo_cases (fs : List File) :
    ∀ acc : List (File × AllowedMimeType),
      ((∀ f ∈ fs, (validateFile f).valid = true) ∧
        validateFilesGo fs acc
          = { valid := true, validatedFiles := some (acc ++ fs.map (fun f => (f, (validateFile f).mimeType.get!))) })
      ∨ (∃ f ∈ fs, (validateFile f).valid = false ∧ validateFilesGo fs acc = validateFile f) := by
  induction fs with
  | nil => intro acc; left; exact ⟨by simp, by simp [validateFilesGo]⟩
  | cons f rest ih =>
    intro acc
    by_cases hf : (validateFile f).valid
    · have step : validateFilesGo (f :: rest) acc
          = validateFilesGo rest (acc ++ [(f, (validateFile f).mimeType.get!)]) := by
        simp [validateFilesGo, hf]
      rcases ih (acc ++ [(f, (validateFile f).mimeType.get!)]) with ⟨hall, heq⟩ | ⟨g, hg, hgv, heq⟩
      · left
        refine ⟨?_, ?_⟩
        · intro g hgmem
          rcases List.mem_cons.mp hgmem with h1 | h1
          · rw [h1]; exact hf
          · exact hall g h1
        · rw [step, heq]
          simp
      · right
        exact ⟨g, List.mem_cons_of_mem _ hg, hgv, by rw [step]; exact heq⟩
    · right
      rw [Bool.not_eq_true] at hf
      exact ⟨f, List.mem_cons_self f rest, hf, by simp [validateFilesGo, hf]⟩

theorem validateFiles_nil : validateFiles [] = { valid := true, validatedFiles := some [] } := by
  simp [validateFiles]

theorem validateFiles_total_fail {files : List File}
    (h : validateTotalSize (totalSizeOf files) = false) :
    validateFiles files = { valid := false, error := some totalErrorMsg } := by
  cases files with
  | nil => exact absurd h (by decide)
  | cons f rest => simp [validateFiles, h]

theorem validateFiles_go_eq {files : List File} (hne : files ≠ [])
    (h : validateTotalSize (totalSizeOf files) = true) :
    validateFiles files = validateFilesGo files [] := by
  cases files with
  | nil => exact absurd rfl hne
  | cons f rest => simp [validateFiles, h]

theorem validateFileSize_iff (size : Int) :
    validateFileSize size = true ↔ 0 < size ∧ size ≤ 5 * 1024 * 1024 := by
  simp only [validateFileSize, MAX_FILE_SIZE, Bool.and_eq_true, decide_eq_true_eq]

theorem validateTotalSize_iff (total : Int) :
    validateTotalSize total = true ↔ total ≤ 20 * 1024 * 1024 := by
  simp only [validateTotalSize, MAX_TOTAL_SIZE, decide_eq_true_eq]

/-- Counterexample for C1: on the buffer 52 49 46 46 00 00 00 00 D7 C5 C2 D0
the code returns WEBP although the buffer bears none of the declared
signature sequences (bytes 8..11 are not ASCII "WEBP"; Node ascii decoding
masks bit 7, so D7 C5 C2 D0 decodes to "WEBP"), refuting the exact-marker
reading of the detection characterization. -/
theorem detectMimeType_characterization_cex :
    detectMimeType [0x52, 0x49, 0x46, 0x46, 0, 0, 0, 0, 0xd7, 0xc5, 0xc2, 0xd0]
      = some AllowedMimeType.webp
    ∧ specHasSignature [0x52, 0x49, 0x46, 0x46, 0, 0, 0, 0, 0xd7, 0xc5, 0xc2, 0xd0] .png = false
    ∧ specHasSignature [0x52, 0x49, 0x46, 0x46, 0, 0, 0, 0, 0xd7, 0xc5, 0xc2, 0xd0] .jpeg = false
    ∧ specHasSignature [0x52, 0x49, 0x46, 0x46, 0, 0, 0, 0, 0xd7, 0xc5, 0xc2, 0xd0] .gif = false
    ∧ specHasSignature [0x52, 0x49, 0x46, 0x46, 0, 0, 0, 0, 0xd7, 0xc5, 0xc2, 0xd0] .webp = false := by
  decide

/-- Claim C1 (amended): for every buffer, `detectMimeType` returns kind K
exactly when the buffer bears one of K's signatures as the code checks them
(PNG 89 50 4E 47 0D 0A 1A 0A; JPEG FF D8 FF then E0/E1/E2/DB/EE; GIF87a or
GIF89a; WEBP the RIFF prefix plus bytes 8..11 equal to ASCII "WEBP" after
the Node ascii masking of bit 7, i.e. modulo 128 per byte), and returns
`none` for every buffer matching none of these masked signatures. -/
theorem detectMimeType_characterization (b : List Nat) :
    (∀ k, detectMimeType b = some k ↔ hasSignature b k = true)
    ∧ ((∀ k, hasSignature b k = false) → detectMimeType b = none) :=
  ⟨fun k => detect_some_iff b k, fun h => detect_none_of_no_sig h⟩

/-- Witness for C1: the 8-byte PNG signature buffer detects as PNG. -/
theorem detectMimeType_characterization_witness :
    detectMimeType [0x89, 0x50, 0x4e, 0x47, 0x0d, 0x0a, 0x1a, 0x0a]
      = some AllowedMimeType.png :=
  ((detectMimeType_characterization
      [0x89, 0x50, 0x4e, 0x47, 0x0d, 0x0a, 0x1a, 0x0a]).1 .png).mpr (by decide)

/-- Claim C2: `validateFiles` on the empty list is accepted with an empty
validated set; a batch whose summed declared sizes fail the total-size check
is rejected with the constant total-size message (independent of any byte
content); otherwise files are validated in input order and the first
per-file rejection is returned alone, unchanged. -/
theorem validateFiles_spec :
    validateFiles [] = { valid := true, validatedFiles := some [] }
    ∧ (∀ files : List File, validateTotalSize (totalSizeOf files) = false →
        validateFiles files = { valid := false, error := some totalErrorMsg })
    ∧ (∀ (pre : List File) (f : File) (post : List File),
        (∀ g ∈ pre, (validateFile g).valid = true) →
        (validateFile f).valid = false →
        validateTotalSize (totalSizeOf (pre ++ f :: post)) = true →
        validateFiles (pre ++ f :: post) = validateFile f) := by
  refine ⟨validateFiles_nil, ?_, ?_⟩
  · intro files h
    exact validateFiles_total_fail h
  · intro pre f post hpre hf htot
    rw [validateFiles_go_eq (by simp) htot]
    exact validateFilesGo_first_fail f post hf pre [] hpre

/-- Witness for C2: a batch of a 10MiB and an 11MiB file (21MiB total) is
rejected with the total-size message. -/
theorem validateFiles_spec_witness :
    validateFiles
        [⟨"a.bin", 10 * 1024 * 1024, [0]⟩, ⟨"b.bin", 11 * 1024 * 1024, [1]⟩]
      = { valid := false, error := some totalErrorMsg } :=
  validateFiles_spec.2.1
    [⟨"a.bin", 10 * 1024 * 1024, [0]⟩, ⟨"b.bin", 11 * 1024 * 1024, [1]⟩]
    (by decide)

/-- Claim C3: `validateFile` checks the declared size first and on failure
rejects with the size message naming the filename (not touching the
content); with the size check passed, a failed detection rejects with the
message naming the filename and the allowed kinds, and a successful
detection is accepted carrying the detected kind. -/
theorem validateFile_spec (file : File) :
    (validateFileSize file.size = false →
      validateFile file = { valid := false, error := some (sizeErrorMsg file.name) })
    ∧ (validateFileSize file.size = true → detectMimeType file.content = none →
      validateFile file = { valid := false, error := some (contentErrorMsg file.name) })
    ∧ (∀ m, validateFileSize file.size = true → detectMimeType file.content = some m →
      validateFile file = { valid := true, mimeType := some m }) :=
  ⟨fun h => validateFile_size_fail h,
   fun h1 h2 => validateFile_detect_none h1 h2,
   fun _ h1 h2 => validateFile_detect_some h1 h2⟩

/-- Witness for C3: a PNG-signature buffer with payload and declared size
100 is accepted as PNG. -/
theorem validateFile_spec_witness :
    validateFile ⟨"photo.png", 100, [0x89, 0x50, 0x4e, 0x47, 0x0d, 0x0a, 0x1a, 0x0a, 1, 2, 3]⟩
      = { valid := true, mimeType := some AllowedMimeType.png } :=
  (validateFile_spec ⟨"photo.png", 100, [0x89, 0x50, 0x4e, 0x47, 0x0d, 0x0a, 0x1a, 0x0a, 1, 2, 3]⟩).2.2
    .png (by decide) (by decide)

/-- Counterexample for C4: the RIFF buffer 52 49 46 46 00 00 00 00 D7 C5 C2 D0
has no ASCII "WEBP" at bytes 8..11 yet the code detects WEBP, because the
ascii decode masks the high bit of each marker byte before the comparison. -/
theorem detect_riff_not_webp_cex :
    sigMatches [0x52, 0x49, 0x46, 0x46, 0, 0, 0, 0, 0xd7, 0xc5, 0xc2, 0xd0]
        [0x52, 0x49, 0x46, 0x46] = true
    ∧ webpMarkerExact [0x52, 0x49, 0x46, 0x46, 0, 0, 0, 0, 0xd7, 0xc5, 0xc2, 0xd0] = false
    ∧ detectMimeType [0x52, 0x49, 0x46, 0x46, 0, 0, 0, 0, 0xd7, 0xc5, 0xc2, 0xd0]
        = some AllowedMimeType.webp := by
  decide

/-- Claim C4 (amended): a buffer starting with the RIFF prefix but failing
the code's WebP extra check (shorter than 12 bytes, or bytes 8..11 not
equal to ASCII "WEBP" after the Node ascii masking of bit 7) is not
detected as WEBP; matching continues and, nothing else matching a
RIFF-initial buffer, the result is `none`, not an error. -/
theorem detect_riff_not_webp (b : List Nat)
    (h1 : sigMatches b [0x52, 0x49, 0x46, 0x46] = true)
    (h2 : webpExtraCheck b = false) :
    detectMimeType b = none ∧ detectMimeType b ≠ some .webp := by
  have hb := sigMatches_head h1
  have hpng := hasSignature_false_of_head .png hb (by decide)
  have hjpeg := hasSignature_false_of_head .jpeg hb (by decide)
  have hgif := hasSignature_false_of_head .gif hb (by decide)
  have hwebp : hasSignature b .webp = false := by
    rw [hasSignature_webp_eq, h2]
    simp
  have hnone : detectMimeType b = none := by
    refine detect_none_of_no_sig fun k => ?_
    cases k
    · exact hpng
    · exact hjpeg
    · exact hgif
    · exact hwebp
  exact ⟨hnone, by simp [hnone]⟩

/-- Witness for C4: the bare 4-byte "RIFF" buffer yields no match. -/
theorem detect_riff_not_webp_witness :
    detectMimeType [0x52, 0x49, 0x46, 0x46] = none :=
  (detect_riff_not_webp [0x52, 0x49, 0x46, 0x46] (by decide) (by decide)).1

/-- Claim C5: `validateFileSize` is true iff `0 < size ≤ 5*1024*1024`;
false at 0, at negatives and at the cap plus one; true at the cap. -/
theorem validateFileSize_spec :
    (∀ size : Int, validateFileSize size = true ↔ 0 < size ∧ size ≤ 5 * 1024 * 1024)
    ∧ validateFileSize 0 = false
    ∧ (∀ size : Int, size < 0 → validateFileSize size = false)
    ∧ validateFileSize (5 * 1024 * 1024) = true
    ∧ validateFileSize (5 * 1024 * 1024 + 1) = false := by
  refine ⟨validateFileSize_iff, by decide, ?_, by decide, by decide⟩
  intro size h
  cases hb : validateFileSize size with
  | false => rfl
  | true => exact absurd ((validateFileSize_iff size).mp hb).1 (by omega)

/-- Witness for C5: size 3 passes the per-file size check. -/
theorem validateFileSize_spec_witness : validateFileSize 3 = true :=
  (validateFileSize_spec.1 3).mpr (by decide)

/-- Claim C6: `validateTotalSize` is true iff `total ≤ 20*1024*1024`, with
no lower bound: the cap passes, cap plus one fails, zero and anything
smaller passes. -/
theorem validateTotalSize_spec :
    (∀ total : Int, validateTotalSize total = true ↔ total ≤ 20 * 1024 * 1024)
    ∧ validateTotalSize (20 * 1024 * 1024) = true
    ∧ validateTotalSize (20 * 1024 * 1024 + 1) = false
    ∧ validateTotalSize 0 = true
    ∧ (∀ total : Int, total ≤ 0 → validateTotalSize total = true) := by
  refine ⟨validateTotalSize_iff, by decide, by decide, by decide, ?_⟩
  intro total h
  exact (validateTotalSize_iff total).mpr (by omega)

/-- Witness for C6: total 5 passes the batch size check. -/
theorem validateTotalSize_spec_witness : validateTotalSize 5 = true :=
  (validateTotalSize_spec.1 5).mpr (by decide)

/-- Counterexample for C7: a valid-size file whose content is RIFF plus the
masked marker D7 C5 C2 D0 is accepted as WEBP although its bytes match no
exact WEBP signature pattern at the declared offsets. -/
theorem validateFile_metadata_untrusted_cex :
    (validateFile ⟨"m.webp", 12, [0x52, 0x49, 0x46, 0x46, 0, 0, 0, 0, 0xd7, 0xc5, 0xc2, 0xd0]⟩).valid = true
    ∧ (validateFile ⟨"m.webp", 12, [0x52, 0x49, 0x46, 0x46, 0, 0, 0, 0, 0xd7, 0xc5, 0xc2, 0xd0]⟩).mimeType
        = some AllowedMimeType.webp
    ∧ specHasSignature [0x52, 0x49, 0x46, 0x46, 0, 0, 0, 0, 0xd7, 0xc5, 0xc2, 0xd0] .webp = false := by
  decide

/-- Claim C7 (amended): the accept decision never uses the declared filename
or MIME type: files with equal declared size and equal bytes get the same
`valid` flag and the same detected kind; and a file accepted as kind K
matched one of K's signature patterns as the code checks them at the
declared offsets (for WEBP, marker bytes compared after the Node ascii
masking of bit 7). -/
theorem validateFile_metadata_untrusted :
    (∀ f1 f2 : File, f1.size = f2.size → f1.content = f2.content →
      (validateFile f1).valid = (validateFile f2).valid
        ∧ (validateFile f1).mimeType = (validateFile f2).mimeType)
    ∧ (∀ (f : File) (k : AllowedMimeType),
        (validateFile f).valid = true → (validateFile f).mimeType = some k →
        hasSignature f.content k = true) := by
  constructor
  · intro f1 f2 h1 h2
    by_cases hs : validateFileSize f2.size
    · have hs1 : validateFileSize f1.size = true := by rw [h1]; exact hs
      cases hd : detectMimeType f2.content with
      | none =>
        have hd1 : detectMimeType f1.content = none := by rw [h2]; exact hd
        rw [validateFile_detect_none hs1 hd1, validateFile_detect_none hs hd]
        exact ⟨rfl, rfl⟩
      | some m =>
        have hd1 : detectMimeType f1.content = some m := by rw [h2]; exact hd
        rw [validateFile_detect_some hs1 hd1, validateFile_detect_some hs hd]
        exact ⟨rfl, rfl⟩
    · rw [Bool.not_eq_true] at hs
      have hs1 : validateFileSize f1.size = false := by rw [h1]; exact hs
      rw [validateFile_size_fail hs1, validateFile_size_fail hs]
      exact ⟨rfl, rfl⟩
  · intro f k hv hm
    obtain ⟨hs, m, hd, heq⟩ := validateFile_valid_elim hv
    rw [heq] at hm
    simp only [Option.some.injEq] at hm
    rw [← hm]
    exact (detect_some_iff f.content m).mp hd

/-- Witness for C7: two files with the same bytes and size but different
names and extensions agree on `valid` and detected kind. -/
theorem validateFile_metadata_untrusted_witness :
    (validateFile ⟨"a.txt", 4, [0xff, 0xd8, 0xff, 0xe0]⟩).valid
      = (validateFile ⟨"b.jpg", 4, [0xff, 0xd8, 0xff, 0xe0]⟩).valid
    ∧ (validateFile ⟨"a.txt", 4, [0xff, 0xd8, 0xff, 0xe0]⟩).mimeType
      = (validateFile ⟨"b.jpg", 4, [0xff, 0xd8, 0xff, 0xe0]⟩).mimeType :=
  validateFile_metadata_untrusted.1 ⟨"a.txt", 4, [0xff, 0xd8, 0xff, 0xe0]⟩
    ⟨"b.jpg", 4, [0xff, 0xd8, 0xff, 0xe0]⟩ rfl rfl

/-- Claim C8: every rejection is returned as a value carrying one of the
three reasons (per-file size message, batch total-size message,
unrecognized-content message), never thrown; a zero-length buffer just
yields no-match. -/
theorem failure_taxonomy :
    (∀ file : File, (validateFile file).valid = false →
      (validateFile file).error = some (sizeErrorMsg file.name)
        ∨ (validateFile file).error = some (contentErrorMsg file.name))
    ∧ (∀ files : List File, (validateFiles files).valid = false →
      (validateFiles files).error = some totalErrorMsg
        ∨ ∃ f ∈ files, (validateFiles files).error = some (sizeErrorMsg f.name)
            ∨ (validateFiles files).error = some (contentErrorMsg f.name))
    ∧ detectMimeType [] = none := by
  refine ⟨?_, ?_, rfl⟩
  · intro file h
    rcases validateFile_invalid_elim h with heq | heq
    · exact Or.inl (by rw [heq])
    · exact Or.inr (by rw [heq])
  · intro files h
    by_cases hlen : files = []
    · subst hlen
      rw [validateFiles_nil] at h
      exact absurd h (by simp)
    · by_cases ht : validateTotalSize (totalSizeOf files)
      · rw [validateFiles_go_eq hlen ht] at h ⊢
        rcases validateFilesGo_cases files [] with ⟨-, heq⟩ | ⟨f, hf, hfv, heq⟩
        · rw [heq] at h
          exact absurd h (by simp)
        · right
          refine ⟨f, hf, ?_⟩
          rw [heq]
          rcases validateFile_invalid_elim hfv with h2 | h2
          · exact Or.inl (by rw [h2])
          · exact Or.inr (by rw [h2])
      · rw [Bool.not_eq_true] at ht
        rw [validateFiles_total_fail ht]
        exact Or.inl rfl

/-- Witness for C8: a declared-size-zero file is rejected with one of the
two per-file messages. -/
theorem failure_taxonomy_witness :
    (validateFile ⟨"big.bin", 0, []⟩).error = some (sizeErrorMsg "big.bin")
      ∨ (validateFile ⟨"big.bin", 0, []⟩).error = some (contentErrorMsg "big.bin") :=
  failure_taxonomy.1 ⟨"big.bin", 0, []⟩ (by decide)

/-- Claim C9: an accepted non-empty batch returns a validated list with
exactly one entry per input file, in input order, pairing each file with
the kind `detectMimeType` returns on its bytes; every member also passed
the per-file size check. -/
theorem validateFiles_accept_shape :
    ∀ files : List File, files ≠ [] → (validateFiles files).valid = true →
      ∃ l, (validateFiles files).validatedFiles = some l
        ∧ l.map Prod.fst = files
        ∧ ∀ p ∈ l, detectMimeType p.1.content = some p.2
            ∧ validateFileSize p.1.size = true := by
  intro files hne hv
  by_cases ht : validateTotalSize (totalSizeOf files)
  · rw [validateFiles_go_eq hne ht] at hv ⊢
    rcases validateFilesGo_cases files [] with ⟨hall, heq⟩ | ⟨f, hf, hfv, heq⟩
    · refine ⟨files.map (fun f => (f, (validateFile f).mimeType.get!)), ?_, ?_, ?_⟩
      · rw [heq]
        simp
      · have hcomp : (Prod.fst ∘ fun f : File => (f, (validateFile f).mimeType.get!)) = id :=
          funext fun f => rfl
        rw [List.map_map, hcomp, List.map_id]
      · intro p hp
        simp only [List.mem_map] at hp
        obtain ⟨f, hfmem, rfl⟩ := hp
        obtain ⟨hs, m, hd, heq2⟩ := validateFile_valid_elim (hall f hfmem)
        refine ⟨?_, hs⟩
        rw [heq2]
        exact hd
    · rw [heq, hfv] at hv
      exact absurd hv (by simp)
  · rw [Bool.not_eq_true] at ht
    rw [validateFiles_total_fail ht] at hv
    exact absurd hv (by simp)

/-- Witness for C9: a singleton PNG batch is accepted and its validated
list pairs the file with PNG. -/
theorem validateFiles_accept_shape_witness :
    ∃ l, (validateFiles [⟨"p.png", 8, [0x89, 0x50, 0x4e, 0x47, 0x0d, 0x0a, 0x1a, 0x0a]⟩]).validatedFiles = some l
      ∧ l.map Prod.fst = [⟨"p.png", 8, [0x89, 0x50, 0x4e, 0x47, 0x0d, 0x0a, 0x1a, 0x0a]⟩]
      ∧ ∀ p ∈ l, detectMimeType p.1.content = some p.2
          ∧ validateFileSize p.1.size = true :=
  validateFiles_accept_shape [⟨"p.png", 8, [0x89, 0x50, 0x4e, 0x47, 0x0d, 0x0a, 0x1a, 0x0a]⟩]
    (by decide) (by decide)

/-- Claim C10: results are well-formed: a valid result carries no error
(and `validateFile` carries a kind, `validateFiles` a validated list); an
invalid result carries an error and neither a kind nor a validated list —
in particular a per-file batch rejection exposes no partial list. -/
theorem result_well_formed :
    (∀ file : File,
      ((validateFile file).valid = true →
        (validateFile file).error = none ∧ (validateFile file).mimeType ≠ none)
      ∧ ((validateFile file).valid = false →
        (validateFile file).error ≠ none ∧ (validateFile file).mimeType = none
          ∧ (validateFile file).validatedFiles = none))
    ∧ (∀ files : List File,
      ((validateFiles files).valid = true →
        (validateFiles files).error = none ∧ (validateFiles files).validatedFiles ≠ none)
      ∧ ((validateFiles files).valid = false →
        (validateFiles files).error ≠ none ∧ (validateFiles files).mimeType = none
          ∧ (validateFiles files).validatedFiles = none)) := by
  constructor
  · intro file
    constructor
    · intro hv
      obtain ⟨-, m, -, heq⟩ := validateFile_valid_elim hv
      rw [heq]
      exact ⟨rfl, by simp⟩
    · intro hv
      rcases validateFile_invalid_elim hv with heq | heq <;> rw [heq] <;>
        exact ⟨by simp, rfl, rfl⟩
  · intro files
    by_cases hlen : files = []
    · subst hlen
      rw [validateFiles_nil]
      exact ⟨fun _ => ⟨rfl, by simp⟩, fun hv => absurd hv (by simp)⟩
    · by_cases ht : validateTotalSize (totalSizeOf files)
      · rw [validateFiles_go_eq hlen ht]
        rcases validateFilesGo_cases files [] with ⟨-, heq⟩ | ⟨f, -, hfv, heq⟩
        · rw [heq]
          exact ⟨fun _ => ⟨rfl, by simp⟩, fun hv => absurd hv (by simp)⟩
        · rw [heq]
          refine ⟨fun hv => absurd (hfv.symm.trans hv) (by simp), fun _ => ?_⟩
          rcases validateFile_invalid_elim hfv with h2 | h2 <;> rw [h2] <;>
            exact ⟨by simp, rfl, rfl⟩
      · rw [Bool.not_eq_true] at ht
        rw [validateFiles_total_fail ht]
        exact ⟨fun hv => absurd hv (by simp), fun _ => ⟨by simp, rfl, rfl⟩⟩

/-- Witness for C10: a valid single-file result has no error and a kind. -/
theorem result_well_formed_witness :
    (validateFile ⟨"p.png", 8, [0x89, 0x50, 0x4e, 0x47, 0x0d, 0x0a, 0x1a, 0x0a]⟩).error = none
    ∧ (validateFile ⟨"p.png", 8, [0x89, 0x50, 0x4e, 0x47, 0x0d, 0x0a, 0x1a, 0x0a]⟩).mimeType ≠ none :=
  (result_well_formed.1 ⟨"p.png", 8, [0x89, 0x50, 0x4e, 0x47, 0x0d, 0x0a, 0x1a, 0x0a]⟩).1 (by decide)

end Upload
